import Mathlib

/-!
# Verification of the diagram-IR compiler and the Mermaid bridge

Shallow embedding of the diagram intermediate-representation compiler
(semantic shape expander, style defaulter, connector router, entity
vocabulary resolver, scene compiler) and of the Mermaid-to-Excalidraw
bridge server (`src/mermaid-converter/server.js`).

The compiler itself (the "enhancer" backend service) is documented in
`src/backend/services/excalidraw/prompt_template.md` and in the storyboard
planner prompt, but its executable code is not part of the source tree we
were given; the definitions concerning it are modelled from the spec, as
their doc comments state.  The bridge server's two HTTP handlers are
embedded directly from `server.js`.
-/

namespace DiagramIR

/-- Modelled from the spec: a primitive drawing element (spec §3).  The
`ptype` is kept as the literal JSON type string (`"rectangle"`,
`"ellipse"`, `"diamond"`, `"line"`, `"freedraw"`, `"text"`, `"arrow"`),
matching the wire format described by the prompt template.  Style
attributes are each optional pre-defaulting.  Coordinates are integers
(the spec's examples use only integer pixel coordinates). -/
structure Primitive where
  id : String
  ptype : String
  x : Int
  y : Int
  width : Int
  height : Int
  /-- ordered (dx, dy) offsets from the origin, for line/freedraw paths. -/
  points : List (Int × Int)
  label : Option String
  strokeColor : Option String
  backgroundColor : Option String
  fillStyle : Option String
  strokeStyle : Option String
  strokeWidth : Option Nat
  roughness : Option Nat
  opacity : Option Nat
  angle : Option Int
  fontSize : Option Nat
  deriving Repr, DecidableEq

/-- A blank primitive, used as the base record for building elements. -/
def Primitive.blank : Primitive :=
  { id := "", ptype := "rectangle", x := 0, y := 0, width := 0, height := 0,
    points := [], label := none, strokeColor := none, backgroundColor := none,
    fillStyle := none, strokeStyle := none, strokeWidth := none,
    roughness := none, opacity := none, angle := none, fontSize := none }

/-- Modelled from the spec: the scene-wide shared style (the storyboard
planner's `shared_style`: one stroke color and one roughness for every
frame of a session, spec §4.2). -/
structure SceneDefaults where
  strokeColor : String
  roughness : Nat
  deriving Repr, DecidableEq

/-- Modelled from the spec: the style defaulter `applyDefaults` (spec
§4.2).  Each rule fills an attribute only when it was not explicitly
provided; `fillStyle` becomes `"hachure"` exactly when a
`backgroundColor` is present and no `fillStyle` was given; `fontSize`
defaults (to 20) only on text elements. -/
def applyDefaults (d : SceneDefaults) (p : Primitive) : Primitive :=
  { p with
    strokeColor := some (p.strokeColor.getD d.strokeColor)
    fillStyle :=
      match p.fillStyle, p.backgroundColor with
      | some fs, _ => some fs
      | none, some _ => some "hachure"
      | none, none => none
    roughness := some (p.roughness.getD d.roughness)
    strokeWidth := some (p.strokeWidth.getD 1)
    opacity := some (p.opacity.getD 100)
    angle := some (p.angle.getD 0)
    fontSize :=
      if p.ptype = "text" then some (p.fontSize.getD 20) else p.fontSize }

/-- Modelled from the spec: the compiler's error kinds (spec §7).  Every
error carries the offending id/key as its detail.  Non-finite coordinates
cannot arise in this integer-coordinate embedding, so `MalformedGeometry`
is raised only for negative sizes. -/
inductive CompileError where
  | MalformedGeometry (detail : String)
  | UnresolvedReference (id : String)
  | UnknownVocabularyKey (key : String)
  | ExpansionFailure (detail : String)
  deriving Repr, DecidableEq

/-- A derived bounding box: `bounds(primitive)` of spec §4.1. -/
structure BBox where
  x : Int
  y : Int
  w : Int
  h : Int
  deriving Repr, DecidableEq

/-- Modelled from the spec: derived bounds (spec §4.1).  Bounded shapes
report their stored box; path shapes (line/arrow/freedraw) report the
min/max extent over `origin + points` (the first point is always
`(0, 0)`, which the fold's initial value accounts for). -/
def boundsOf (p : Primitive) : BBox :=
  if p.ptype = "line" ∨ p.ptype = "arrow" ∨ p.ptype = "freedraw" then
    let minx := p.points.foldl (fun a q => min a q.1) 0
    let maxx := p.points.foldl (fun a q => max a q.1) 0
    let miny := p.points.foldl (fun a q => min a q.2) 0
    let maxy := p.points.foldl (fun a q => max a q.2) 0
    ⟨p.x + minx, p.y + miny, maxx - minx, maxy - miny⟩
  else ⟨p.x, p.y, p.width, p.height⟩

/-- Modelled from the spec: the alias table of the semantic shape
expander (`cylinder|database|db`, `cloud`, `actor|person|user`,
`note|sticky`); any other type string is its own canonical tag. -/
def canonicalType (t : String) : String :=
  if t = "cylinder" ∨ t = "database" ∨ t = "db" then "cylinder"
  else if t = "cloud" then "cloud"
  else if t = "actor" ∨ t = "person" ∨ t = "user" then "actor"
  else if t = "note" ∨ t = "sticky" then "note"
  else t

/-- Modelled from the spec: the fixed small height of the cylinder's top
ellipse (the lid), spec §4.3. -/
def lidHeight : Int := 20

/-- Modelled from the spec: one of the cloud's 4 overlapping ellipses of
varying radii, arranged along the horizontal extent of the box and
vertically centered (spec §4.3).  Sub-element 0 carries the request's id
and label. -/
def cloudEllipse (req : Primitive) (i : Nat) : Primitive :=
  let eh := if i % 2 = 0 then req.height else req.height * 3 / 4
  { req with
    id := if i = 0 then req.id else req.id ++ "-c" ++ toString i
    ptype := "ellipse"
    x := req.x + (i : Int) * req.width / 6
    y := req.y + (req.height - eh) / 2
    width := req.width / 2
    height := eh
    label := if i = 0 then req.label else none
    points := [] }

/-- Modelled from the spec: the stick-figure expansion for
`actor|person|user` — a head ellipse occupying roughly 35% of the total
height, centered in the top fraction, plus line segments for torso, two
arms and two legs (spec §4.3).  The head carries the id and label. -/
def actorParts (req : Primitive) : List Primitive :=
  let headH := req.height * 35 / 100
  let bodyH := req.height - headH
  let cx := req.x + req.width / 2
  [ { req with ptype := "ellipse", x := cx - headH / 2, y := req.y,
               width := headH, height := headH, points := [] },
    { req with id := req.id ++ "-torso", ptype := "line", x := cx,
               y := req.y + headH, width := 0, height := 0, label := none,
               points := [(0, 0), (0, bodyH / 2)] },
    { req with id := req.id ++ "-arm-l", ptype := "line", x := cx,
               y := req.y + headH + bodyH / 6, width := 0, height := 0,
               label := none,
               points := [(0, 0), (-(req.width / 2), bodyH / 4)] },
    { req with id := req.id ++ "-arm-r", ptype := "line", x := cx,
               y := req.y + headH + bodyH / 6, width := 0, height := 0,
               label := none,
               points := [(0, 0), (req.width / 2, bodyH / 4)] },
    { req with id := req.id ++ "-leg-l", ptype := "line", x := cx,
               y := req.y + headH + bodyH / 2, width := 0, height := 0,
               label := none,
               points := [(0, 0), (-(req.width / 2), bodyH / 2)] },
    { req with id := req.id ++ "-leg-r", ptype := "line", x := cx,
               y := req.y + headH + bodyH / 2, width := 0, height := 0,
               label := none,
               points := [(0, 0), (req.width / 2, bodyH / 2)] } ]

/-- Modelled from the spec: the `note|sticky` expansion — the rectangle
plus a folded triangular flap at the top-right corner, sized at 18% of
the shorter dimension (spec §4.3). -/
def noteParts (req : Primitive) : List Primitive :=
  let flap := (min req.width req.height) * 18 / 100
  [ { req with ptype := "rectangle", points := [] },
    { req with id := req.id ++ "-flap", ptype := "line",
               x := req.x + req.width - flap, y := req.y,
               width := 0, height := 0, label := none,
               points := [(0, 0), (0, flap), (flap, flap)] } ]

/-- Modelled from the spec: the semantic shape expander `expand`
(spec §4.3).  Negative sizes are rejected with `MalformedGeometry`
before expansion (spec §7); a cylinder shorter than its minimum lid
height is an `ExpansionFailure` (spec §7); unknown types pass through
unchanged as a single literal primitive.  The first sub-element of every
expansion is the main one: it keeps the request's id and label. -/
def expand (req : Primitive) : Except CompileError (List Primitive) :=
  if req.width < 0 ∨ req.height < 0 then
    .error (.MalformedGeometry req.id)
  else if canonicalType req.ptype = "cylinder" then
    if req.height ≤ lidHeight then .error (.ExpansionFailure req.id)
    else .ok
      [ { req with ptype := "rectangle", y := req.y + lidHeight,
                   height := req.height - lidHeight, points := [] },
        { req with id := req.id ++ "-top", ptype := "ellipse",
                   height := lidHeight, label := none, points := [] },
        { req with id := req.id ++ "-bottom", ptype := "line",
                   y := req.y + req.height, width := 0, height := 0,
                   label := none,
                   points := [(0, 0), (req.width / 2, -(lidHeight / 2)),
                              (req.width, 0)] } ]
  else if canonicalType req.ptype = "cloud" then
    .ok [cloudEllipse req 0, cloudEllipse req 1,
         cloudEllipse req 2, cloudEllipse req 3]
  else if canonicalType req.ptype = "actor" then
    .ok (actorParts req)
  else if canonicalType req.ptype = "note" then
    .ok (noteParts req)
  else
    .ok [req]

/-- The four sides of a bounding box a connector can attach to. -/
inductive Side where
  | left
  | right
  | top
  | bottom
  deriving Repr, DecidableEq

/-- Modelled from the spec: the result of connector routing (spec §4.4):
the chosen exit/entry sides, the two anchor points, and the path. -/
structure RouteResult where
  exitSide : Side
  entrySide : Side
  anchorFrom : Int × Int
  anchorTo : Int × Int
  pathPoints : List (Int × Int)
  deriving Repr, DecidableEq

/-- Twice the x coordinate of a box's center (kept doubled so that the
center is exact in integer arithmetic). -/
def centerX2 (b : BBox) : Int := 2 * b.x + b.w

/-- Twice the y coordinate of a box's center. -/
def centerY2 (b : BBox) : Int := 2 * b.y + b.h

/-- The anchor point at the middle of a given side of a box. -/
def anchorOn (b : BBox) (s : Side) : Int × Int :=
  match s with
  | .left => (b.x, b.y + b.h / 2)
  | .right => (b.x + b.w, b.y + b.h / 2)
  | .top => (b.x + b.w / 2, b.y)
  | .bottom => (b.x + b.w / 2, b.y + b.h)

/-- Modelled from the spec: the tie-break tolerance for near-equal
horizontal/vertical separation (spec §4.4 and §9: a tunable constant;
ties prefer horizontal routing).  Comparisons use doubled-center
coordinates, so this value is twice the pixel tolerance. -/
def tieTolerance : Int := 0

/-- Modelled from the spec: a right-angle (Manhattan) path from anchor
`a` departing perpendicular to the source side to anchor `b`, with one
or two intermediate bend points (spec §4.4). -/
def elbowPath (a : Int × Int) (exitS : Side) (b : Int × Int) :
    List (Int × Int) :=
  match exitS with
  | .left | .right =>
    let mx := (a.1 + b.1) / 2
    [a, (mx, a.2), (mx, b.2), b]
  | .top | .bottom =>
    let my := (a.2 + b.2) / 2
    [a, (a.1, my), (b.1, my), b]

/-- Modelled from the spec: the connector router `route` (spec §4.4).
It compares the separation of the two bounding-box centers along each
axis; the dominant axis decides left/right versus top/bottom anchoring
(ties, up to `tieTolerance`, prefer horizontal), the exit side faces the
target's center, and the entry side is the opposite-facing one.  The
path is Manhattan when `elbowed`, otherwise the direct segment. -/
def route (fromB toB : BBox) (elbowed : Bool) : RouteResult :=
  let dx := centerX2 toB - centerX2 fromB
  let dy := centerY2 toB - centerY2 fromB
  let sides : Side × Side :=
    if |dy| ≤ |dx| + tieTolerance then
      if 0 ≤ dx then (.right, .left) else (.left, .right)
    else
      if 0 ≤ dy then (.bottom, .top) else (.top, .bottom)
  let a := anchorOn fromB sides.1
  let b := anchorOn toB sides.2
  { exitSide := sides.1, entrySide := sides.2,
    anchorFrom := a, anchorTo := b,
    pathPoints := if elbowed then elbowPath a sides.1 b else [a, b] }

/-- Modelled from the spec: one shape entry of a frame's IR (spec §4.6
step 1): either an inline semantic shape request, or a reference to a
declared vocabulary key. -/
inductive FrameShape where
  | inline (req : Primitive)
  | vocabRef (key : String)
  deriving Repr, DecidableEq

/-- Modelled from the spec: a connector request (spec §3): endpoint
ids (the `from`/`to` fields of the JSON wire format), optional label,
elbowed flag and arrowheads. -/
structure ConnectorRequest where
  ctype : String
  fromId : String
  toId : String
  label : Option String
  elbowed : Bool
  startArrowhead : Option String
  endArrowhead : Option String
  deriving Repr, DecidableEq

/-- Modelled from the spec: one frame's IR — an ordered list of shape
requests and an ordered list of connector requests (spec §6). -/
structure FrameIR where
  shapes : List FrameShape
  connectors : List ConnectorRequest
  deriving Repr, DecidableEq

/-- Modelled from the spec: the session vocabulary — a read-only map
from logical entity key to its canonical shape specification
(spec §4.5), fully populated before any frame compiles. -/
abbrev Vocabulary := List (String × Primitive)

/-- Modelled from the spec: the vocabulary resolver `resolve(key)`
(spec §4.5).  The entity key is used as the element's string id in every
frame, as the storyboard planner prescribes; an undeclared key is a
`UnknownVocabularyKey` error, not a silent default. -/
def resolve (v : Vocabulary) (k : String) : Except CompileError Primitive :=
  match v.lookup k with
  | some req => .ok { req with id := k }
  | none => .error (.UnknownVocabularyKey k)

/-- Resolve one frame shape: vocabulary references go through the
resolver, inline specs are used as-is (spec §4.6 step 1). -/
def resolveShape (v : Vocabulary) : FrameShape → Except CompileError Primitive
  | .inline req => .ok req
  | .vocabRef k => resolve v k

/-- Modelled from the spec: the shape phase of the scene compiler
(spec §4.6 steps 1–3): resolve, expand and style-default every shape
request in declaration order, and record each placed element's id and
materialized bounds for connector routing. -/
def shapesPass (v : Vocabulary) (d : SceneDefaults) :
    List FrameShape → Except CompileError (List Primitive × List (String × BBox))
  | [] => .ok ([], [])
  | s :: rest =>
    match resolveShape v s with
    | .error e => .error e
    | .ok req =>
      match expand req with
      | .error e => .error e
      | .ok prims =>
        match shapesPass v d rest with
        | .error e => .error e
        | .ok (restPrims, restTable) =>
          .ok (prims.map (applyDefaults d) ++ restPrims,
               (req.id, boundsOf req) :: restTable)

/-- Modelled from the spec: materialize one routed connector as a path
primitive whose points are offsets from its origin anchor, then apply
the style defaults (spec §4.6 step 4). -/
def connectorPrim (d : SceneDefaults) (c : ConnectorRequest)
    (fb tb : BBox) : Primitive :=
  let r := route fb tb c.elbowed
  applyDefaults d
    { Primitive.blank with
      ptype := c.ctype, x := r.anchorFrom.1, y := r.anchorFrom.2,
      points := r.pathPoints.map
        (fun q => (q.1 - r.anchorFrom.1, q.2 - r.anchorFrom.2)),
      label := c.label }

/-- Modelled from the spec: the connector phase of the scene compiler
(spec §4.6 step 4): each connector's endpoints must resolve among the
already-placed element ids, else the whole compilation fails with
`UnresolvedReference` — a dangling reference is never silently
dropped (spec §4.4 failure mode). -/
def connectorsPass (d : SceneDefaults) (table : List (String × BBox)) :
    List ConnectorRequest → Except CompileError (List Primitive)
  | [] => .ok []
  | c :: rest =>
    match table.lookup c.fromId with
    | none => .error (.UnresolvedReference c.fromId)
    | some fb =>
      match table.lookup c.toId with
      | none => .error (.UnresolvedReference c.toId)
      | some tb =>
        (connectorsPass d table rest).map
          (fun l => connectorPrim d c fb tb :: l)

/-- Modelled from the spec: the scene compiler `compile(frameIR,
vocabulary)` (spec §4.6): the shape phase then the connector phase, the
final scene being all shape-derived primitives in declaration order
followed by all connector-derived primitives in declaration order
(spec §4.6 step 5 and §9: built in two passes and concatenated). -/
def compile (v : Vocabulary) (d : SceneDefaults) (f : FrameIR) :
    Except CompileError (List Primitive) :=
  match shapesPass v d f.shapes with
  | .error e => .error e
  | .ok (sp, table) =>
    match connectorsPass d table f.connectors with
    | .error e => .error e
    | .ok cp => .ok (sp ++ cp)

/-- The primitives a declared vocabulary entity contributes to any frame
that references it: resolve, expand, and apply the session's shared
style defaults.  A pure function of the vocabulary snapshot, the shared
defaults and the key alone. -/
def entityPrims (v : Vocabulary) (d : SceneDefaults) (k : String) :
    Except CompileError (List Primitive) :=
  match resolve v k with
  | .error e => .error e
  | .ok req =>
    match expand req with
    | .error e => .error e
    | .ok prims => .ok (prims.map (applyDefaults d))

/-- Decidable equality for `Except` results, to evaluate the compiler
on concrete inputs. -/
instance {ε α : Type} [DecidableEq ε] [DecidableEq α] :
    DecidableEq (Except ε α) := fun a b =>
  match a, b with
  | .error e1, .error e2 =>
    if h : e1 = e2 then isTrue (by rw [h])
    else isFalse (fun hh => h (Except.error.inj hh))
  | .ok v1, .ok v2 =>
    if h : v1 = v2 then isTrue (by rw [h])
    else isFalse (fun hh => h (Except.ok.inj hh))
  | .error e1, .ok v2 => isFalse (fun hh => Except.noConfusion hh)
  | .ok v1, .error e2 => isFalse (fun hh => Except.noConfusion hh)

/-- The shared style of the sample session used in concrete checks. -/
def wDefaults : SceneDefaults := ⟨"#1e1e1e", 1⟩

/-- A sample plain rectangle element at a given x. -/
def wBox (i : String) (px : Int) : Primitive :=
  { Primitive.blank with
    id := i, ptype := "rectangle", x := px, y := 230,
    width := 160, height := 60 }

/-- A sample arrow connector request between two element ids. -/
def wArrow (a b : String) : ConnectorRequest :=
  ⟨"arrow", a, b, none, false, none, some "arrow"⟩

/-- A sample session vocabulary declaring one database entity. -/
def wVocab : Vocabulary :=
  [("db", { Primitive.blank with
            id := "db", ptype := "database", x := 900, y := 190,
            width := 120, height := 90, label := some "Database",
            backgroundColor := some "#d0bfff" })]

/-- A sample frame referencing the vocabulary entity and one inline box. -/
def wFrame1 : FrameIR :=
  ⟨[FrameShape.vocabRef "db", FrameShape.inline (wBox "gw" 200)],
   [wArrow "gw" "db"]⟩

/-- A second, different sample frame referencing the same entity. -/
def wFrame2 : FrameIR :=
  ⟨[FrameShape.inline (wBox "app" 430), FrameShape.vocabRef "db"],
   [wArrow "app" "db"]⟩

/-- A sample frame whose connector targets an id never placed. -/
def wFrameBad : FrameIR :=
  ⟨[FrameShape.inline (wBox "a" 100)], [wArrow "a" "z"]⟩

end DiagramIR

namespace MermaidBridge

/-- A minimal JSON value model for the bridge's request and response
bodies (`src/mermaid-converter/server.js`). -/
inductive Json where
  | null
  | boolean (b : Bool)
  | num (n : Int)
  | str (s : String)
  | arr (elems : List Json)
  | obj (fields : List (String × Json))

/-- Field access on a JSON object: `none` models JS `undefined` (a
missing field, or property access on a non-object body). -/
def Json.getField (j : Json) (k : String) : Option Json :=
  match j with
  | .obj fields => fields.lookup k
  | _ => none

/-- JavaScript truthiness restricted to JSON values (for the
`if (!mermaid)` guard): `null`, `false`, `0` and the empty string are
falsy; arrays and objects are always truthy. -/
def Json.truthy : Json → Bool
  | .null => false
  | .boolean b => b
  | .num n => n != 0
  | .str s => s != ""
  | .arr _ => true
  | .obj _ => true

/-- An HTTP response as the bridge produces it: a status code and a
JSON body (`res.status(n).json(b)`; a bare `res.json(b)` is 200). -/
structure HttpResponse where
  status : Nat
  body : Json

/-- The external `parseMermaidToExcalidraw` call: it either returns the
Excalidraw elements or throws, which the handler observes as a caught
error whose string form is `String(err)`. -/
abbrev MermaidParse := Json → Except String (List Json)

/-- GET /health from `server.js`: unconditionally `{status: "ok"}` with
the default 200 status; it never consults the Mermaid parse call. -/
def healthHandler : HttpResponse :=
  ⟨200, .obj [("status", .str "ok")]⟩

/-- POST /convert from `server.js`: destructure `mermaid` from the JSON
body; a missing or falsy value is answered 400 with
`{error: "mermaid field required"}` before the parse call is consulted;
a parse success is answered 200 with `{elements}`; a thrown parse error
is caught and answered 400 with `{error: String(err)}`. -/
def convertHandler (parseMermaid : MermaidParse) (body : Json) :
    HttpResponse :=
  match body.getField "mermaid" with
  | none => ⟨400, .obj [("error", .str "mermaid field required")]⟩
  | some m =>
    if m.truthy then
      match parseMermaid m with
      | .ok elements => ⟨200, .obj [("elements", .arr elements)]⟩
      | .error err => ⟨400, .obj [("error", .str err)]⟩
    else ⟨400, .obj [("error", .str "mermaid field required")]⟩

/-- An HTTP method of the two routes the bridge serves. -/
inductive Method where
  | get
  | post
  deriving Repr, DecidableEq

/-- An incoming HTTP request to the bridge. -/
structure Request where
  method : Method
  path : String
  body : Json

/-- The express app of `server.js`: exactly two routes, GET /health and
POST /convert; anything else is unhandled (`none`). -/
def serverHandle (parseMermaid : MermaidParse) (req : Request) :
    Option HttpResponse :=
  match req.method, req.path with
  | .get, "/health" => some healthHandler
  | .post, "/convert" => some (convertHandler parseMermaid req.body)
  | _, _ => none

/-- Modelled from the spec: what the backend caller observes from one
bridge call — a reply, or a transport timeout (spec §5, §7). -/
inductive BridgeOutcome where
  | reply (r : HttpResponse)
  | timeout

/-- Modelled from the spec: the backend's Mermaid-path dispatch, whose
code is not part of this tree (spec §5 and §7): a 200 reply's elements
are used; a timeout or a 4xx-class reply triggers the deterministic
fallback to the coordinate-based compiler path; only a non-4xx failure
would escalate as fatal. -/
def dispatchMermaid {α : Type} (fallbackScene : α)
    (useElements : Json → α) : BridgeOutcome → Except String α
  | .reply r =>
    if r.status = 200 then .ok (useElements r.body)
    else if 400 ≤ r.status ∧ r.status < 500 then .ok fallbackScene
    else .error "bridge failure"
  | .timeout => .ok fallbackScene

end MermaidBridge

open DiagramIR

/-- C5: when the target's center x exceeds the source's center x by more
than the tie-break tolerance and the horizontal separation dominates,
the router exits on the source's right side and enters on the target's
left side. -/
theorem route_rightward (fromB toB : BBox) (elbowed : Bool)
    (hdx : tieTolerance < centerX2 toB - centerX2 fromB)
    (hdom : |centerY2 toB - centerY2 fromB| ≤ |centerX2 toB - centerX2 fromB|) :
    (route fromB toB elbowed).exitSide = Side.right ∧
    (route fromB toB elbowed).entrySide = Side.left := by
  have htol : tieTolerance = 0 := rfl
  have hdx0 : 0 ≤ centerX2 toB - centerX2 fromB := by omega
  have hcond : |centerY2 toB - centerY2 fromB| ≤
      |centerX2 toB - centerX2 fromB| + tieTolerance := by
    rw [htol, add_zero]
    exact hdom
  rw [route]
  simp [hcond, hdx0]

/-- Witness for C5: the spec's scenario — a box at x=100 connected to a
box at x=500 at the same y routes right-to-left. -/
theorem route_rightward_witness :
    (route ⟨100, 200, 120, 60⟩ ⟨500, 200, 120, 60⟩ false).exitSide
      = Side.right ∧
    (route ⟨100, 200, 120, 60⟩ ⟨500, 200, 120, 60⟩ false).entrySide
      = Side.left :=
  route_rightward ⟨100, 200, 120, 60⟩ ⟨500, 200, 120, 60⟩ false
    (by decide) (by decide)

/-- C3: a cylinder/database/db request of width `w` and height `h`
expands to exactly three primitives — a rectangle body, a top ellipse
and a bottom arc line — all sharing horizontal extent `w`, with combined
vertical span `h`, and with the request's label on the body. -/
theorem cylinder_expansion (req : Primitive)
    (htype : req.ptype = "cylinder" ∨ req.ptype = "database" ∨ req.ptype = "db")
    (hw : 0 ≤ req.width) (hh : lidHeight < req.height) :
    ∃ body lid arc,
      expand req = .ok [body, lid, arc] ∧
      body.ptype = "rectangle" ∧ lid.ptype = "ellipse" ∧ arc.ptype = "line" ∧
      (∀ p ∈ [body, lid, arc],
        (boundsOf p).x = req.x ∧ (boundsOf p).w = req.width) ∧
      min (boundsOf body).y (min (boundsOf lid).y (boundsOf arc).y)
        = req.y ∧
      max ((boundsOf body).y + (boundsOf body).h)
        (max ((boundsOf lid).y + (boundsOf lid).h)
             ((boundsOf arc).y + (boundsOf arc).h))
        = req.y + req.height ∧
      body.label = req.label ∧ lid.label = none ∧ arc.label = none := by
  have hcanon : canonicalType req.ptype = "cylinder" := by
    rcases htype with h | h | h <;> simp [canonicalType, h]
  have hguard : ¬ (req.width < 0 ∨ req.height < 0) := by
    push_neg
    constructor
    · omega
    · have : (0 : Int) < lidHeight := by decide
      omega
  have hh2 : (20 : Int) < req.height := hh
  refine ⟨{ req with
            ptype := "rectangle", y := req.y + lidHeight,
            height := req.height - lidHeight, points := [] },
          { req with
            id := req.id ++ "-top", ptype := "ellipse",
            height := lidHeight, label := none, points := [] },
          { req with
            id := req.id ++ "-bottom", ptype := "line",
            y := req.y + req.height, width := 0, height := 0,
            label := none,
            points := [(0, 0), (req.width / 2, -(lidHeight / 2)),
                       (req.width, 0)] },
          ?_, rfl, rfl, rfl, ?_, ?_, ?_, rfl, rfl, rfl⟩
  · simp only [expand, hguard, hcanon, if_false, if_true, reduceIte]
    rw [if_neg (by omega)]
  · intro p hp
    simp only [List.mem_cons, List.not_mem_nil, or_false] at hp
    rcases hp with h | h | h
    all_goals subst h
    all_goals simp [boundsOf, lidHeight]
    all_goals omega
  · simp [boundsOf, lidHeight]
    omega
  · simp [boundsOf, lidHeight]
    omega

/-- Witness for C3: the spec's scenario — a cylinder of width 120,
height 90 at (600, 200) labeled "Users DB". -/
theorem cylinder_expansion_witness :
    ∃ body lid arc,
      expand { Primitive.blank with
               id := "db", ptype := "cylinder", x := 600, y := 200,
               width := 120, height := 90, label := some "Users DB" }
        = .ok [body, lid, arc] ∧
      body.ptype = "rectangle" ∧ lid.ptype = "ellipse" ∧ arc.ptype = "line" ∧
      (∀ p ∈ [body, lid, arc],
        (boundsOf p).x = 600 ∧ (boundsOf p).w = 120) ∧
      min (boundsOf body).y (min (boundsOf lid).y (boundsOf arc).y) = 200 ∧
      max ((boundsOf body).y + (boundsOf body).h)
        (max ((boundsOf lid).y + (boundsOf lid).h)
             ((boundsOf arc).y + (boundsOf arc).h)) = 200 + 90 ∧
      body.label = some "Users DB" ∧ lid.label = none ∧ arc.label = none :=
  cylinder_expansion
    { Primitive.blank with
      id := "db", ptype := "cylinder", x := 600, y := 200,
      width := 120, height := 90, label := some "Users DB" }
    (Or.inl rfl) (by decide) (by decide)

/-- C4: with a background color set and no explicit fill style,
defaulting yields `fillStyle = "hachure"`; an explicit fill style is
kept verbatim; with no background color the fill style stays omitted. -/
theorem applyDefaults_fillStyle (d : SceneDefaults) (p : Primitive) :
    (p.fillStyle = none → p.backgroundColor ≠ none →
      (applyDefaults d p).fillStyle = some "hachure") ∧
    (∀ fs, p.fillStyle = some fs → (applyDefaults d p).fillStyle = some fs) ∧
    (p.fillStyle = none → p.backgroundColor = none →
      (applyDefaults d p).fillStyle = none) := by
  refine ⟨?_, ?_, ?_⟩
  · intro hfs hbg
    cases hb : p.backgroundColor with
    | none => exact absurd hb hbg
    | some c => simp [applyDefaults, hfs, hb]
  · intro fs hfs
    simp [applyDefaults, hfs]
  · intro hfs hbg
    simp [applyDefaults, hfs, hbg]

/-- Witness for C4: all three branches of the fill-style rule are
exercised at concrete primitives. -/
theorem applyDefaults_fillStyle_witness :
    (applyDefaults ⟨"#1e1e1e", 1⟩
        { Primitive.blank with backgroundColor := some "#a5d8ff" }).fillStyle
      = some "hachure" ∧
    (applyDefaults ⟨"#1e1e1e", 1⟩
        { Primitive.blank with backgroundColor := some "#a5d8ff",
                               fillStyle := some "solid" }).fillStyle
      = some "solid" ∧
    (applyDefaults ⟨"#1e1e1e", 1⟩ Primitive.blank).fillStyle = none := by
  refine ⟨?_, ?_, ?_⟩
  · exact (applyDefaults_fillStyle ⟨"#1e1e1e", 1⟩
      { Primitive.blank with backgroundColor := some "#a5d8ff" }).1
      rfl (by decide)
  · exact (applyDefaults_fillStyle ⟨"#1e1e1e", 1⟩
      { Primitive.blank with backgroundColor := some "#a5d8ff",
                             fillStyle := some "solid" }).2.1 "solid" rfl
  · exact (applyDefaults_fillStyle ⟨"#1e1e1e", 1⟩ Primitive.blank).2.2 rfl rfl

/-- C6: the style defaulter is idempotent: applying it twice (with the
same scene defaults) gives the same result as applying it once. -/
theorem applyDefaults_idem (d : SceneDefaults) (p : Primitive) :
    applyDefaults d (applyDefaults d p) = applyDefaults d p := by
  unfold applyDefaults
  cases hfs : p.fillStyle <;> cases hbg : p.backgroundColor <;>
    simp [hfs, hbg] <;> split <;> simp_all

/-- The style defaulter never changes an element's id. -/
theorem applyDefaults_preserves_id (d : SceneDefaults) (p : Primitive) :
    (applyDefaults d p).id = p.id := rfl

/-- Every successful expansion contains a main sub-element carrying the
request's id (by construction it is the first one). -/
theorem expand_has_main (req : Primitive) (prims : List Primitive)
    (h : expand req = .ok prims) : ∃ p ∈ prims, p.id = req.id := by
  unfold expand at h
  by_cases h1 : req.width < 0 ∨ req.height < 0
  · rw [if_pos h1] at h
    exact absurd h (by simp)
  rw [if_neg h1] at h
  by_cases h2 : canonicalType req.ptype = "cylinder"
  · rw [if_pos h2] at h
    by_cases h3 : req.height ≤ lidHeight
    · rw [if_pos h3] at h
      exact absurd h (by simp)
    · rw [if_neg h3] at h
      injection h with h
      subst h
      exact ⟨_, List.mem_cons_self _ _, rfl⟩
  rw [if_neg h2] at h
  by_cases h4 : canonicalType req.ptype = "cloud"
  · rw [if_pos h4] at h
    injection h with h
    subst h
    exact ⟨_, List.mem_cons_self _ _, rfl⟩
  rw [if_neg h4] at h
  by_cases h5 : canonicalType req.ptype = "actor"
  · rw [if_pos h5] at h
    injection h with h
    subst h
    simp only [actorParts]
    exact ⟨_, List.mem_cons_self _ _, rfl⟩
  rw [if_neg h5] at h
  by_cases h6 : canonicalType req.ptype = "note"
  · rw [if_pos h6] at h
    injection h with h
    subst h
    simp only [noteParts]
    exact ⟨_, List.mem_cons_self _ _, rfl⟩
  rw [if_neg h6] at h
  injection h with h
  subst h
  exact ⟨_, List.mem_cons_self _ _, rfl⟩

/-- A successful connector pass resolved both endpoints of every
connector request against the placed-element table. -/
theorem connectorsPass_resolves (d : SceneDefaults)
    (table : List (String × BBox)) (cs : List ConnectorRequest) :
    ∀ l : List Primitive, connectorsPass d table cs = .ok l →
      ∀ c ∈ cs,
        (table.lookup c.fromId).isSome ∧ (table.lookup c.toId).isSome := by
  induction cs with
  | nil =>
    intro l h c hc
    exact absurd hc (List.not_mem_nil c)
  | cons c0 rest ih =>
    intro l h c hc
    cases hf : table.lookup c0.fromId with
    | none => simp [connectorsPass, hf] at h
    | some fb =>
      cases ht : table.lookup c0.toId with
      | none => simp [connectorsPass, hf, ht] at h
      | some tb =>
        simp only [connectorsPass, hf, ht] at h
        cases hr : connectorsPass d table rest with
        | error e =>
          rw [hr] at h
          simp [Except.map] at h
        | ok l0 =>
          rcases List.mem_cons.mp hc with rfl | hc2
          · constructor
            · rw [hf]; rfl
            · rw [ht]; rfl
          · exact ih l0 hr c hc2

/-- Every id recorded in the shape phase's placed-element table is the
id of some emitted shape primitive. -/
theorem shapesPass_table_ids (v : Vocabulary) (d : SceneDefaults)
    (shapes : List FrameShape) :
    ∀ sp table, shapesPass v d shapes = .ok (sp, table) →
      ∀ k b, table.lookup k = some b → ∃ p ∈ sp, p.id = k := by
  induction shapes with
  | nil =>
    intro sp table h k b hk
    simp only [shapesPass, Except.ok.injEq, Prod.mk.injEq] at h
    obtain ⟨rfl, rfl⟩ := h.symm
    simp at hk
  | cons s rest ih =>
    intro sp table h k b hk
    cases hres : resolveShape v s with
    | error e => simp [shapesPass, hres] at h
    | ok req =>
      cases hexp : expand req with
      | error e => simp [shapesPass, hres, hexp] at h
      | ok prims =>
        cases hrest : shapesPass v d rest with
        | error e => simp [shapesPass, hres, hexp, hrest] at h
        | ok pr =>
          obtain ⟨restPrims, restTable⟩ := pr
          simp only [shapesPass, hres, hexp, hrest, Except.ok.injEq,
                     Prod.mk.injEq] at h
          obtain ⟨rfl, rfl⟩ := h
          by_cases hk0 : k = req.id
          · obtain ⟨p, hp, hpid⟩ := expand_has_main req prims hexp
            refine ⟨applyDefaults d p,
                    List.mem_append_left _ (List.mem_map_of_mem _ hp), ?_⟩
            rw [applyDefaults_preserves_id, hpid, hk0]
          · have hbeq : (k == req.id) = false :=
              beq_eq_false_iff_ne.mpr hk0
            rw [List.lookup_cons] at hk
            rw [hbeq] at hk
            obtain ⟨p, hp, hpid⟩ := ih restPrims restTable hrest k b hk
            exact ⟨p, List.mem_append_right _ hp, hpid⟩

/-- A successful compilation decomposes into the shape phase followed by
the connector phase, concatenated in that order. -/
theorem compile_decomp (v : Vocabulary) (d : SceneDefaults) (f : FrameIR)
    (s : List Primitive) (h : compile v d f = .ok s) :
    ∃ sp table cp,
      shapesPass v d f.shapes = .ok (sp, table) ∧
      connectorsPass d table f.connectors = .ok cp ∧
      s = sp ++ cp := by
  cases hs : shapesPass v d f.shapes with
  | error e => simp [compile, hs] at h
  | ok pr =>
    obtain ⟨sp, table⟩ := pr
    cases hc : connectorsPass d table f.connectors with
    | error e => simp [compile, hs, hc] at h
    | ok cp =>
      simp only [compile, hs, hc, Except.ok.injEq] at h
      exact ⟨sp, table, cp, rfl, hc, h.symm⟩

/-- A frame that references a declared vocabulary key receives exactly
that entity's canonical primitives, as a contiguous-order-preserving
sublist of its shape-phase output. -/
theorem shapesPass_vocab_sublist (v : Vocabulary) (d : SceneDefaults)
    (shapes : List FrameShape) :
    ∀ sp table, shapesPass v d shapes = .ok (sp, table) →
      ∀ k, FrameShape.vocabRef k ∈ shapes →
      ∃ l, entityPrims v d k = .ok l ∧ l.Sublist sp := by
  induction shapes with
  | nil =>
    intro sp table h k hk
    exact absurd hk (List.not_mem_nil _)
  | cons s rest ih =>
    intro sp table h k hk
    cases hres : resolveShape v s with
    | error e => simp [shapesPass, hres] at h
    | ok req =>
      cases hexp : expand req with
      | error e => simp [shapesPass, hres, hexp] at h
      | ok prims =>
        cases hrest : shapesPass v d rest with
        | error e => simp [shapesPass, hres, hexp, hrest] at h
        | ok pr =>
          obtain ⟨restPrims, restTable⟩ := pr
          simp only [shapesPass, hres, hexp, hrest, Except.ok.injEq,
                     Prod.mk.injEq] at h
          obtain ⟨rfl, rfl⟩ := h
          rcases List.mem_cons.mp hk with heq | hk2
          · rw [← heq] at hres
            have hres2 : resolve v k = .ok req := hres
            refine ⟨prims.map (applyDefaults d), ?_,
                    List.sublist_append_left _ _⟩
            simp [entityPrims, hres2, hexp]
          · obtain ⟨l, hl, hsub⟩ := ih restPrims restTable hrest k hk2
            exact ⟨l, hl, hsub.trans (List.sublist_append_right _ _)⟩

/-- Any list of connector requests containing a dangling endpoint makes
the connector pass fail with an `UnresolvedReference` error. -/
theorem connectorsPass_dangling (d : SceneDefaults)
    (table : List (String × BBox)) (cs : List ConnectorRequest) :
    (∃ c ∈ cs, table.lookup c.fromId = none ∨ table.lookup c.toId = none) →
    ∃ i, connectorsPass d table cs
      = .error (CompileError.UnresolvedReference i) := by
  induction cs with
  | nil =>
    rintro ⟨c, hc, -⟩
    exact absurd hc (List.not_mem_nil _)
  | cons c0 rest ih =>
    rintro ⟨c, hc, hbad⟩
    rcases List.mem_cons.mp hc with rfl | hc2
    · rcases hbad with hb | hb
      · exact ⟨c.fromId, by simp [connectorsPass, hb]⟩
      · cases hf : table.lookup c.fromId with
        | none => exact ⟨c.fromId, by simp [connectorsPass, hf]⟩
        | some fb => exact ⟨c.toId, by simp [connectorsPass, hf, hb]⟩
    · cases hf : table.lookup c0.fromId with
      | none => exact ⟨c0.fromId, by simp [connectorsPass, hf]⟩
      | some fb =>
        cases ht : table.lookup c0.toId with
        | none => exact ⟨c0.toId, by simp [connectorsPass, hf, ht]⟩
        | some tb =>
          obtain ⟨i, hi⟩ := ih ⟨c, hc2, hbad⟩
          exact ⟨i, by simp [connectorsPass, hf, ht, hi, Except.map]⟩

/-- C1: every compiled scene is the shape-phase output (all
non-connector primitives, in declaration order) followed by the
connector-phase output (all connector-derived primitives, in declaration
order); each connector's two referenced elements appear among the
shape-phase primitives, hence strictly before the connector in the
emitted order. -/
theorem scene_ordering (v : Vocabulary) (d : SceneDefaults) (f : FrameIR)
    (s : List Primitive) (h : compile v d f = .ok s) :
    ∃ sp table cp,
      shapesPass v d f.shapes = .ok (sp, table) ∧
      connectorsPass d table f.connectors = .ok cp ∧
      s = sp ++ cp ∧
      ∀ c ∈ f.connectors,
        (∃ p ∈ sp, p.id = c.fromId) ∧ (∃ p ∈ sp, p.id = c.toId) := by
  obtain ⟨sp, table, cp, hs, hc, hcat⟩ := compile_decomp v d f s h
  refine ⟨sp, table, cp, hs, hc, hcat, ?_⟩
  intro c hcmem
  obtain ⟨hf, ht⟩ := connectorsPass_resolves d table f.connectors cp hc c hcmem
  obtain ⟨bf, hbf⟩ := Option.isSome_iff_exists.mp hf
  obtain ⟨bt, hbt⟩ := Option.isSome_iff_exists.mp ht
  exact ⟨shapesPass_table_ids v d f.shapes sp table hs c.fromId bf hbf,
         shapesPass_table_ids v d f.shapes sp table hs c.toId bt hbt⟩

/-- Witness for C1: a concrete frame with one vocabulary entity, one
inline box and one connector compiles into shapes-then-connectors
order. -/
theorem scene_ordering_witness :
    ∃ sp table cp,
      shapesPass wVocab wDefaults wFrame1.shapes = .ok (sp, table) ∧
      connectorsPass wDefaults table wFrame1.connectors = .ok cp ∧
      (compile wVocab wDefaults wFrame1).toOption.getD [] = sp ++ cp ∧
      ∀ c ∈ wFrame1.connectors,
        (∃ p ∈ sp, p.id = c.fromId) ∧ (∃ p ∈ sp, p.id = c.toId) :=
  scene_ordering wVocab wDefaults wFrame1
    ((compile wVocab wDefaults wFrame1).toOption.getD []) (by decide)

/-- C2: two frames compiled independently against the same vocabulary
snapshot and shared defaults receive identical primitives for a
vocabulary entity they both reference — the entity's canonical
primitives, a function of the vocabulary, defaults and key alone. -/
theorem vocabulary_consistency (v : Vocabulary) (d : SceneDefaults)
    (f1 f2 : FrameIR) (k : String) (s1 s2 : List Primitive)
    (h1 : compile v d f1 = .ok s1) (h2 : compile v d f2 = .ok s2)
    (m1 : FrameShape.vocabRef k ∈ f1.shapes)
    (m2 : FrameShape.vocabRef k ∈ f2.shapes) :
    ∃ l, entityPrims v d k = .ok l ∧ l.Sublist s1 ∧ l.Sublist s2 := by
  obtain ⟨sp1, t1, cp1, hs1, hc1, hcat1⟩ := compile_decomp v d f1 s1 h1
  obtain ⟨sp2, t2, cp2, hs2, hc2, hcat2⟩ := compile_decomp v d f2 s2 h2
  obtain ⟨l, hl, hsub1⟩ := shapesPass_vocab_sublist v d f1.shapes sp1 t1 hs1 k m1
  obtain ⟨l2, hl2, hsub2⟩ := shapesPass_vocab_sublist v d f2.shapes sp2 t2 hs2 k m2
  rw [hl] at hl2
  injection hl2 with hll
  subst hll
  subst hcat1
  subst hcat2
  exact ⟨l, hl,
    hsub1.trans (List.sublist_append_left _ _),
    hsub2.trans (List.sublist_append_left _ _)⟩

/-- Witness for C2: two concrete frames both referencing the declared
"db" entity receive the same primitives for it. -/
theorem vocabulary_consistency_witness :
    ∃ l, entityPrims wVocab wDefaults "db" = .ok l ∧
      l.Sublist ((compile wVocab wDefaults wFrame1).toOption.getD []) ∧
      l.Sublist ((compile wVocab wDefaults wFrame2).toOption.getD []) :=
  vocabulary_consistency wVocab wDefaults wFrame1 wFrame2 "db"
    ((compile wVocab wDefaults wFrame1).toOption.getD [])
    ((compile wVocab wDefaults wFrame2).toOption.getD [])
    (by decide) (by decide) (by decide) (by decide)

/-- C7: a connector whose `from` or `to` id is not among the placed
elements makes the whole compilation fail with `UnresolvedReference`;
because `compile` returns `Except`, no partial scene is produced and the
connector is never silently dropped. -/
theorem unresolved_connector (v : Vocabulary) (d : SceneDefaults)
    (f : FrameIR) (sp : List Primitive) (table : List (String × BBox))
    (hs : shapesPass v d f.shapes = .ok (sp, table))
    (c : ConnectorRequest) (hc : c ∈ f.connectors)
    (hbad : table.lookup c.fromId = none ∨ table.lookup c.toId = none) :
    ∃ badId, compile v d f
      = .error (CompileError.UnresolvedReference badId) := by
  obtain ⟨i, hi⟩ := connectorsPass_dangling d table f.connectors ⟨c, hc, hbad⟩
  exact ⟨i, by simp [compile, hs, hi]⟩

/-- Witness for C7: the spec's scenario — a connector referencing id "z"
when no element with id "z" has been placed raises
`UnresolvedReference`. -/
theorem unresolved_connector_witness :
    ∃ badId, compile wVocab wDefaults wFrameBad
      = .error (CompileError.UnresolvedReference badId) :=
  unresolved_connector wVocab wDefaults wFrameBad
    ((shapesPass wVocab wDefaults wFrameBad.shapes).toOption.getD ([], [])).1
    ((shapesPass wVocab wDefaults wFrameBad.shapes).toOption.getD ([], [])).2
    (by decide) (wArrow "a" "z") (by decide) (Or.inr (by decide))

open MermaidBridge

/-- C8: the bridge's convert route answers 200 with an element list on
success and otherwise 400 with a structured error body — never a
partial result; the backend dispatch (modelled from the spec) treats
any such 4xx reply, and a timeout, as the signal to fall back to the
coordinate-based compiler path instead of escalating a fatal error. -/
theorem bridge_convert_contract (parseMermaid : MermaidParse)
    (body : Json) {α : Type} (fallbackScene : α)
    (useElements : Json → α) :
    ((convertHandler parseMermaid body).status = 200 ∨
      (convertHandler parseMermaid body).status = 400) ∧
    ((convertHandler parseMermaid body).status = 200 →
      ∃ elements, (convertHandler parseMermaid body).body
        = Json.obj [("elements", Json.arr elements)]) ∧
    ((convertHandler parseMermaid body).status = 400 →
      ∃ msg, (convertHandler parseMermaid body).body
        = Json.obj [("error", Json.str msg)]) ∧
    dispatchMermaid fallbackScene useElements
        (.reply (convertHandler parseMermaid body))
      = .ok (if (convertHandler parseMermaid body).status = 200
             then useElements (convertHandler parseMermaid body).body
             else fallbackScene) ∧
    dispatchMermaid fallbackScene useElements .timeout
      = .ok fallbackScene := by
  have key :
      (∃ el, convertHandler parseMermaid body
        = ⟨200, Json.obj [("elements", Json.arr el)]⟩) ∨
      (∃ msg, convertHandler parseMermaid body
        = ⟨400, Json.obj [("error", Json.str msg)]⟩) := by
    cases hb : body.getField "mermaid" with
    | none =>
      exact Or.inr ⟨"mermaid field required", by simp [convertHandler, hb]⟩
    | some m =>
      by_cases hm : m.truthy
      · cases hp : parseMermaid m with
        | ok elements =>
          exact Or.inl ⟨elements, by simp [convertHandler, hb, hm, hp]⟩
        | error err =>
          exact Or.inr ⟨err, by simp [convertHandler, hb, hm, hp]⟩
      · exact Or.inr ⟨"mermaid field required", by simp [convertHandler, hb, hm]⟩
  rcases key with ⟨el, hch⟩ | ⟨msg, hch⟩ <;> rw [hch]
  · exact ⟨Or.inl rfl, fun _ => ⟨el, rfl⟩,
      fun h => absurd h (by simp),
      by simp [dispatchMermaid], by simp [dispatchMermaid]⟩
  · exact ⟨Or.inr rfl, fun h => absurd h (by simp),
      fun _ => ⟨msg, rfl⟩,
      by simp [dispatchMermaid], by simp [dispatchMermaid]⟩

/-- C9: a POST body without a truthy `mermaid` field is answered 400
with `{error: "mermaid field required"}`, and the response does not
depend on the Mermaid parse call at all — the parser is never
consulted for such a request. -/
theorem bridge_convert_requires_mermaid (p1 p2 : MermaidParse)
    (body : Json)
    (h : Option.all (fun m => !m.truthy) (body.getField "mermaid") = true) :
    convertHandler p1 body
      = ⟨400, Json.obj [("error", Json.str "mermaid field required")]⟩ ∧
    convertHandler p1 body = convertHandler p2 body := by
  cases hb : body.getField "mermaid" with
  | none => simp [convertHandler, hb]
  | some m =>
    rw [hb] at h
    simp only [Option.all, Bool.not_eq_true'] at h
    simp [convertHandler, hb, h]

/-- Witness for C9: a body carrying only a `text` field is rejected with
the 400 error, identically under two different parsers. -/
theorem bridge_convert_requires_mermaid_witness :
    convertHandler (fun _ => .error "parse failed")
        (Json.obj [("text", Json.str "graph TD")])
      = ⟨400, Json.obj [("error", Json.str "mermaid field required")]⟩ ∧
    convertHandler (fun _ => .error "parse failed")
        (Json.obj [("text", Json.str "graph TD")])
      = convertHandler (fun _ => .ok [])
          (Json.obj [("text", Json.str "graph TD")]) :=
  bridge_convert_requires_mermaid
    (fun _ => .error "parse failed") (fun _ => .ok [])
    (Json.obj [("text", Json.str "graph TD")]) (by decide)

/-- C10: GET /health is answered `{status: "ok"}` with status 200
unconditionally — for every parser and every request body, so the probe
never exercises the Mermaid parser; and probe success does not imply
convert success: there are a parser and a body for which the very same
server answers /convert with a 400. -/
theorem bridge_health_probe (p1 p2 : MermaidParse) (b1 b2 : Json) :
    serverHandle p1 ⟨.get, "/health", b1⟩
      = some ⟨200, Json.obj [("status", Json.str "ok")]⟩ ∧
    serverHandle p1 ⟨.get, "/health", b1⟩
      = serverHandle p2 ⟨.get, "/health", b2⟩ ∧
    ∃ (parseMermaid : MermaidParse) (body : Json) (r : HttpResponse),
      serverHandle parseMermaid ⟨.post, "/convert", body⟩ = some r ∧
      r.status = 400 :=
  ⟨rfl, rfl, fun _ => .error "boom", Json.obj [],
   ⟨400, Json.obj [("error", Json.str "mermaid field required")]⟩,
   rfl, rfl⟩
